import Mathlib

/-!
Shallow embedding of the noteful-v4 request handlers:
* `src/unnamed/part_000` — the notes router (GET one, POST, PUT, DELETE,
  plus the helpers `validateFolderId` and `validateTagIds`);
* `src/routes/users.js` — the user-registration handler.

Conventions of the embedding:
* A Mongo document id is a `String`; `isValidObjectId` mirrors
  `mongoose.Types.ObjectId.isValid` on strings (24 hex characters, or any
  12-character string).
* A JSON body field that may be absent is an `Option`; `none` is the
  JavaScript `undefined`.  JavaScript truthiness of an optional string is
  `truthy` below (absent and the empty string are falsy).
* A handler is a pure function from the database and the request data to
  the committed response together with the database after the request.
  The committed response is the first `res.*` call or the first `next`
  call of the handler (in Express, later calls cannot change the
  response already sent).
* Mongoose casts ids when a query or a write is executed; a value that
  does not cast raises a CastError, which the route maps through
  `next(err)` with no `status`, hence a 500 from the default error
  handler.  `Resp.serverErr` models that outcome.
-/

namespace Noteful

/-- A hexadecimal digit, as accepted by the ObjectId parser. -/
def isHexChar (c : Char) : Bool :=
  c.isDigit || (('a' ≤ c && c ≤ 'f') || ('A' ≤ c && c ≤ 'F'))

/-- mongoose.Types.ObjectId.isValid on a string argument: a 24-character
hexadecimal string, or any string of length 12 (interpreted as 12 raw
bytes). -/
def isValidObjectId (s : String) : Bool :=
  s.length == 12 || (s.length == 24 && s.toList.all isHexChar)

/-- JavaScript truthiness of a possibly-absent string field:
`undefined` and the empty string are falsy. -/
def truthy : Option String → Bool
  | none => false
  | some s => !(s == "")

/-! ## Data model (models/folder, models/tag, models/note) -/

structure Folder where
  id : String
  name : String
  userId : String
deriving DecidableEq

structure NTag where
  id : String
  name : String
  userId : String
deriving DecidableEq

structure Note where
  id : String
  title : String
  content : Option String
  folderId : Option String
  tags : List String
  userId : String
deriving DecidableEq

/-- The collections the notes router touches. -/
structure DB where
  folders : List Folder
  tags : List NTag
  notes : List Note
deriving DecidableEq

/-- Request body of POST / and PUT /:id on the notes router, after the
destructuring `const { title, content, folderId, tags = [] } = req.body`
(so an absent tags field is already the empty array). -/
structure NoteBody where
  title : Option String
  content : Option String
  folderId : Option String
  tags : List String
deriving DecidableEq

/-- Observable outcome of a notes-router request.  `errResp` is
`next(err)` with `err.status` set; `notFound` is a bare `next()`, which
falls through to the 404 handler; `serverErr` is `next(err)` with no
status (e.g. a mongoose CastError), a 500 from the default error
handler. -/
inductive Resp where
  | jsonNote (n : Note)
  | createdNote (n : Note)
  | noContent
  | errResp (status : Nat) (msg : String)
  | notFound
  | serverErr (msg : String)
deriving DecidableEq

/-- HTTP status of a notes-router outcome. -/
def Resp.status : Resp → Nat
  | .jsonNote _ => 200
  | .createdNote _ => 201
  | .noContent => 204
  | .errResp s _ => s
  | .notFound => 404
  | .serverErr _ => 500

/-- Rejection reasons of the two validation helpers.  The string
rejections 'InvalidFolder' and 'InvalidTag' of the source become
`invalidFolder` and `invalidTag`; `castErr` is a mongoose CastError
raised while casting an id inside the query. -/
inductive ValErr where
  | invalidFolder
  | invalidTag
  | castErr
deriving DecidableEq

/-- validateFolderId (part_000 lines 16-26): resolves when folderId is
falsy; otherwise `Folder.findOne({_id: folderId, userId})`, rejecting
with 'InvalidFolder' when no such folder exists.  A folderId that does
not cast to an ObjectId makes `findOne` reject with a CastError. -/
def validateFolderId (db : DB) (folderId : Option String) (userId : String) : Option ValErr :=
  if !truthy folderId then none
  else if !isValidObjectId (folderId.getD "") then some ValErr.castErr
  else if db.folders.any (fun fo => fo.id == folderId.getD "" && fo.userId == userId) then none
  else some ValErr.invalidFolder

/-- The result list of `Tag.find({ $and: [{ _id: { $in: tags }, userId }] })`:
the stored tags whose id occurs in `tags` and whose userId matches. -/
def tagMatches (db : DB) (tags : List String) (userId : String) : List NTag :=
  db.tags.filter (fun tg => tags.contains tg.id && tg.userId == userId)

/-- validateTagIds (part_000 lines 31-41): resolves when tags is empty;
otherwise runs the `Tag.find` above and rejects with 'InvalidTag' when
the number of results differs from the length of the submitted array.
An element that does not cast to an ObjectId makes `find` reject with a
CastError. -/
def validateTagIds (db : DB) (tags : List String) (userId : String) : Option ValErr :=
  if tags.length == 0 then none
  else if tags.any (fun t => !isValidObjectId t) then some ValErr.castErr
  else if !(tags.length == (tagMatches db tags userId).length) then some ValErr.invalidTag
  else none

/-- `Promise.all([valFolderIdProm, valTagIdsProm])`: the first rejection
wins; both helpers reject immediately after their single query, and the
theorems below never depend on the tie, so the model takes the folder
rejection first. -/
def firstErr (a b : Option ValErr) : Option ValErr :=
  match a with
  | some e => some e
  | none => b

/-- The catch blocks of POST and PUT (part_000 lines 143-153 and
206-216): 'InvalidFolder' and 'InvalidTag' become 400 errors; any other
rejection (a CastError) is passed to `next` unchanged, a 500. -/
def mapValErr : ValErr → Resp
  | .invalidFolder => Resp.errResp 400 "The folder is not valid"
  | .invalidTag => Resp.errResp 400 "The tag is not valid"
  | .castErr => Resp.serverErr "CastError"

/-- The document `Note.create(newNote)` persists, with
`newNote = { title, content, folderId, tags, userId }`
(part_000 line 129).  `nid` is the ObjectId mongoose generates. -/
def noteOfBody (nid userId : String) (b : NoteBody) : Note :=
  ⟨nid, b.title.getD "", b.content, b.folderId, b.tags, userId⟩

/-- Whether the write document casts: mongoose casts `folderId` (when
the key is defined) and every element of `tags` to ObjectId; an
uncastable value (for example the empty string) raises a CastError and
nothing is written. -/
def castOk (b : NoteBody) : Bool :=
  (match b.folderId with
   | none => true
   | some f => isValidObjectId f)
  && b.tags.all isValidObjectId

/-- The validation-then-write tail of POST / (part_000 lines 129-153):
`Promise.all` over the two helpers, then `Note.create`. -/
def notesPostWrite (db : DB) (userId nid : String) (b : NoteBody) : Resp × DB :=
  match firstErr (validateFolderId db b.folderId userId) (validateTagIds db b.tags userId) with
  | some e => (mapValErr e, db)
  | none =>
    if castOk b then
      (Resp.createdNote (noteOfBody nid userId b),
       ⟨db.folders, db.tags, db.notes ++ [noteOfBody nid userId b]⟩)
    else (Resp.serverErr "CastError", db)

/-- POST / (part_000 lines 102-154).  Note the tags format check of the
source is a `forEach` whose callback calls `next(err)` and `return`s
only from the callback: the handler keeps running, so the validation
tail still executes (and can still change the database), while the
committed response stays the 400 fired first. -/
def notesPost (db : DB) (userId nid : String) (b : NoteBody) : Resp × DB :=
  if !truthy b.title then
    (Resp.errResp 400 "Missing `title` in request body", db)
  else if truthy b.folderId && !isValidObjectId (b.folderId.getD "") then
    (Resp.errResp 400 "The `folderId` is not valid", db)
  else
    let w := notesPostWrite db userId nid b
    if b.tags.any (fun t => !isValidObjectId t) then
      (Resp.errResp 400 "The tags `id` is not valid", w.2)
    else w

/-- GET /:id (part_000 lines 77-99): format check on the id, then
`Note.findOne({_id: id, userId})`; a missing result is a bare `next()`. -/
def notesGetOne (db : DB) (userId id : String) : Resp :=
  if !isValidObjectId id then Resp.errResp 400 "The `id` is not valid"
  else
    match db.notes.find? (fun n => n.id == id && n.userId == userId) with
    | some n => Resp.jsonNote n
    | none => Resp.notFound

/-- The document `Note.findByIdAndUpdate(id, updateNote, {new: true})`
returns, with `updateNote = { title, content, folderId, tags, userId }`
(part_000 line 190).  A key of `updateNote` that is `undefined` is
modelled as leaving the stored field unchanged; `tags` and `userId` are
always defined, and the theorems below do not depend on the choice for
the optional keys. -/
def putMerge (n : Note) (userId : String) (b : NoteBody) : Note :=
  ⟨n.id,
   b.title.getD n.title,
   (match b.content with
    | none => n.content
    | some c => some c),
   (match b.folderId with
    | none => n.folderId
    | some f => some f),
   b.tags,
   userId⟩

/-- PUT /:id (part_000 lines 157-217).  After the format checks and the
two ownership helpers, the write is
`Note.findByIdAndUpdate(id, updateNote, {new: true})`: it matches on
`_id` alone, with no `userId` condition.  Stored ids are unique, so the
map below touches at most one document. -/
def notesPut (db : DB) (userId id : String) (b : NoteBody) : Resp × DB :=
  if !isValidObjectId id then
    (Resp.errResp 400 "The `id` is not valid", db)
  else if b.title == some "" then
    (Resp.errResp 400 "Missing `title` in request body", db)
  else if truthy b.folderId && !isValidObjectId (b.folderId.getD "") then
    (Resp.errResp 400 "The `folderId` is not valid", db)
  else if !((b.tags.filter (fun t => !isValidObjectId t)).length == 0) then
    (Resp.errResp 400 "The tags `id` is not valid", db)
  else
    match firstErr (validateFolderId db b.folderId userId) (validateTagIds db b.tags userId) with
    | some e => (mapValErr e, db)
    | none =>
      if castOk b then
        match db.notes.find? (fun n => n.id == id) with
        | none => (Resp.notFound, db)
        | some n =>
          (Resp.jsonNote (putMerge n userId b),
           ⟨db.folders, db.tags,
            db.notes.map (fun m => if m.id == id then putMerge n userId b else m)⟩)
      else (Resp.serverErr "CastError", db)

/-- DELETE /:id (part_000 lines 221-243): format check on the id, then
`Note.findOneAndRemove({_id: id, userId})`; 204 when a document was
removed, a bare `next()` otherwise. -/
def notesDelete (db : DB) (userId id : String) : Resp × DB :=
  if !isValidObjectId id then (Resp.errResp 400 "The `id` is not valid", db)
  else
    match db.notes.find? (fun n => n.id == id && n.userId == userId) with
    | some _ =>
      (Resp.noContent,
       ⟨db.folders, db.tags, db.notes.eraseP (fun n => n.id == id && n.userId == userId)⟩)
    | none => (Resp.notFound, db)

/-! ## User registration (src/routes/users.js) -/

/-- A JSON value as far as the registration checks look at it: a string,
or some value of another type (`typeof req.body[field] !== 'string'`). -/
inductive JVal where
  | str (s : String)
  | nonstr
deriving DecidableEq

/-- Request body of POST /users; `none` is an absent field. -/
structure RegBody where
  username : Option JVal
  password : Option JVal
  fullname : Option JVal
deriving DecidableEq

structure User where
  username : String
  password : String
  fullname : Option String
deriving DecidableEq

structure UserDB where
  users : List User
deriving DecidableEq

/-- String.prototype.trim: whitespace stripped from both ends.
(Implemented over the character list so that it evaluates inside the
kernel; JavaScript strips a slightly larger whitespace class, which no
theorem below depends on.) -/
def jsTrim (s : String) : String :=
  String.mk (((s.toList.dropWhile Char.isWhitespace).reverse.dropWhile Char.isWhitespace).reverse)

/-- Outcome of POST /users.  `createdUser` is the 201 response;
`errResp` is `next(err)` with `err.status` set; `validationErr` is the
direct `res.status(err.code).json(err)` of the catch block, carrying
the code, the reason and the message of the rejected object. -/
inductive RegResp where
  | createdUser (u : User)
  | errResp (status : Nat) (msg : String)
  | validationErr (code : Nat) (reason : String) (message : String)
deriving DecidableEq

/-- HTTP status of a registration outcome. -/
def RegResp.status : RegResp → Nat
  | .createdUser _ => 201
  | .errResp s _ => s
  | .validationErr c _ _ => c

/-- users.js lines 60-62: the first of username (min 1) and password
(min 8) whose trimmed length is below its minimum. -/
def tooSmallFields (username password : String) : Option String :=
  if (jsTrim username).length < 1 then some "username"
  else if (jsTrim password).length < 8 then some "password"
  else none

/-- users.js lines 64-66: only password carries a max (72), and the
source compares with `<` rather than `>`, so this finds password
whenever its trimmed length is BELOW 72. -/
def tooLargeFields (password : String) : Option String :=
  if (jsTrim password).length < 72 then some "password" else none

/-- POST /users (users.js lines 9-103).  `hash` is `User.hashPassword`
(a bcrypt wrapper living outside this repository), passed as a
parameter.  The size checks are computed by the source (see
`tooSmallFields` and `tooLargeFields`), but the `if` on line 68 only
binds a local message string and neither returns nor calls `next`, so
control always falls through to the duplicate-username query; the
embedding therefore has no size branch, mirroring the source. -/
def registerUser (hash : String → String) (db : UserDB) (b : RegBody) : RegResp × UserDB :=
  match b.username, b.password with
  | none, _ => (RegResp.errResp 422 "Missing username in request body", db)
  | some _, none => (RegResp.errResp 422 "Missing password in request body", db)
  | some JVal.nonstr, some _ =>
    (RegResp.errResp 422 "Incorrect field type: username must be string", db)
  | some (JVal.str _), some JVal.nonstr =>
    (RegResp.errResp 422 "Incorrect field type: password must be string", db)
  | some (JVal.str u), some (JVal.str p) =>
    if b.fullname == some JVal.nonstr then
      (RegResp.errResp 422 "Incorrect field type: fullname must be string", db)
    else if !(jsTrim u == u) then
      (RegResp.errResp 422 "Need to remove whitespace in username", db)
    else if !(jsTrim p == p) then
      (RegResp.errResp 422 "Need to remove whitespace in password", db)
    else if db.users.countP (fun x => x.username == u) > 0 then
      (RegResp.validationErr 422 "ValidationError"
        ("Username " ++ u ++ " already exist, please pick a new one"), db)
    else
      (RegResp.createdUser
        ⟨u, hash p,
         match b.fullname with
         | some (JVal.str s) => some s
         | _ => none⟩,
       ⟨db.users ++
        [⟨u, hash p,
          match b.fullname with
          | some (JVal.str s) => some s
          | _ => none⟩]⟩)

/-! ## Concrete fixtures -/

/-- A syntactically valid ObjectId (24 hexadecimal characters). -/
def oidA : String := "aaaaaaaaaaaaaaaaaaaaaaaa"

/-- A second valid ObjectId, used for stored tags. -/
def oidB : String := "bbbbbbbbbbbbbbbbbbbbbbbb"

/-- A database holding a single note owned by user u1. -/
def dbOwnedNote : DB :=
  ⟨[], [], [⟨oidA, "secret", some "c", none, [], "u1"⟩]⟩

/-- A database holding a single tag owned by user u1. -/
def dbOneTag : DB :=
  ⟨[], [⟨oidB, "work", "u1"⟩], []⟩

/-! ## Helper lemmas -/

lemma mem_of_contains {l : List String} {a : String} (h : l.contains a = true) : a ∈ l :=
  List.elem_iff.mp h

/-- Counting argument behind the tag-set check: when a member of the
submitted array matches no stored tag of the user, and stored tag ids
are unique (as Mongo _id values are), the `Tag.find` result list is
strictly shorter than the array. -/
lemma tagMatches_length_lt (db : DB) (tags : List String) (u t : String)
    (ht : t ∈ tags)
    (hnm : ∀ tg ∈ db.tags, ¬(tg.id = t ∧ tg.userId = u))
    (hnodup : (db.tags.map NTag.id).Nodup) :
    (tagMatches db tags u).length < tags.length := by
  have hsub : (tagMatches db tags u).Sublist db.tags := List.filter_sublist _
  have hnd : ((tagMatches db tags u).map NTag.id).Nodup :=
    (hsub.map NTag.id).nodup hnodup
  have hss : (tagMatches db tags u).map NTag.id ⊆ tags.filter (fun y => !(y == t)) := by
    intro x hx
    obtain ⟨tg, htg, rfl⟩ := List.mem_map.mp hx
    obtain ⟨h1, h2⟩ := List.mem_filter.mp htg
    rw [Bool.and_eq_true] at h2
    obtain ⟨h21, h22⟩ := h2
    have hm : tg.id ∈ tags := mem_of_contains h21
    have hne : ¬ tg.id = t := fun he => hnm tg h1 ⟨he, by simpa using h22⟩
    exact List.mem_filter.mpr ⟨hm, by simp [hne]⟩
  have hlen1 : (tagMatches db tags u).length ≤ (tags.filter (fun y => !(y == t))).length := by
    have := (hnd.subperm hss).length_le
    simpa using this
  have hlen2 : (tags.filter (fun y => !(y == t))).length < tags.length :=
    List.length_filter_lt_length_iff_exists.mpr ⟨t, ht, by simp⟩
  omega

lemma firstErr_eq_none {a b : Option ValErr} (h : firstErr a b = none) :
    a = none ∧ b = none := by
  cases a with
  | none => exact ⟨rfl, h⟩
  | some e => exact absurd h (by simp [firstErr])

lemma castOk_false_of_bad_tag (b : NoteBody) (t : String) (ht : t ∈ b.tags)
    (hv : isValidObjectId t = false) : castOk b = false := by
  have hall : b.tags.all isValidObjectId = false :=
    List.all_eq_false.mpr ⟨t, ht, by simp [hv]⟩
  simp [castOk, hall]

lemma notesPostWrite_db_unchanged_of_castFail (db : DB) (u nid : String) (b : NoteBody)
    (hc : castOk b = false) : (notesPostWrite db u nid b).2 = db := by
  unfold notesPostWrite
  cases hfe : firstErr (validateFolderId db b.folderId u) (validateTagIds db b.tags u) with
  | none => simp [hc]
  | some e => simp

lemma notesPostWrite_eq_of_err (db : DB) (u nid : String) (b : NoteBody) (e : ValErr)
    (h : firstErr (validateFolderId db b.folderId u) (validateTagIds db b.tags u) = some e) :
    notesPostWrite db u nid b = (mapValErr e, db) := by
  unfold notesPostWrite
  simp [h]

lemma validateFolderId_invalid (db : DB) (u f : String)
    (hv : isValidObjectId f = true)
    (hno : ∀ fo ∈ db.folders, ¬(fo.id = f ∧ fo.userId = u)) :
    validateFolderId db (some f) u = some ValErr.invalidFolder := by
  have hne : ¬ f = "" := by
    intro he
    rw [he] at hv
    exact absurd hv (by decide)
  have hanyf : db.folders.any (fun fo => fo.id == f && fo.userId == u) = false := by
    rw [List.any_eq_false]
    intro fo hfo
    simp only [Bool.and_eq_true, beq_iff_eq, not_and]
    exact fun h1 h2 => hno fo hfo ⟨h1, h2⟩
  simp [validateFolderId, truthy, hne, hv, hanyf]

lemma validateFolderId_ne_castErr (db : DB) (fid : Option String) (u : String)
    (h : ¬(truthy fid = true ∧ isValidObjectId (fid.getD "") = false)) :
    validateFolderId db fid u ≠ some ValErr.castErr := by
  unfold validateFolderId
  by_cases h1 : truthy fid
  · have h2 : isValidObjectId (fid.getD "") = true := by
      by_cases h3 : isValidObjectId (fid.getD "") = true
      · exact h3
      · exact absurd ⟨h1, by simpa using h3⟩ h
    by_cases h4 : db.folders.any (fun fo => fo.id == fid.getD "" && fo.userId == u) <;>
      simp [h1, h2, h4]
  · simp [h1]

lemma validateTagIds_invalid (db : DB) (tags : List String) (u t : String)
    (ht : t ∈ tags)
    (hval : ∀ s ∈ tags, isValidObjectId s = true)
    (hnm : ∀ tg ∈ db.tags, ¬(tg.id = t ∧ tg.userId = u))
    (hnodup : (db.tags.map NTag.id).Nodup) :
    validateTagIds db tags u = some ValErr.invalidTag := by
  have hlt := tagMatches_length_lt db tags u t ht hnm hnodup
  have hlen0 : ¬ tags.length = 0 := by
    have := List.length_pos.mpr (List.ne_nil_of_mem ht)
    omega
  have hany : tags.any (fun s => !isValidObjectId s) = false := by
    rw [List.any_eq_false]
    intro s hs
    simp [hval s hs]
  have hne : ¬ tags.length = (tagMatches db tags u).length := by omega
  simp [validateTagIds, hlen0, hany, hne]

lemma post_bad_folder_format_400 (db : DB) (u nid : String) (b : NoteBody)
    (h1 : truthy b.folderId = true) (h2 : isValidObjectId (b.folderId.getD "") = false) :
    (notesPost db u nid b).1.status = 400 ∧ (notesPost db u nid b).2 = db := by
  by_cases htl : truthy b.title
  · constructor <;> simp [notesPost, htl, h1, h2, Resp.status]
  · constructor <;> simp [notesPost, htl, Resp.status]

lemma put_bad_folder_format_400 (db : DB) (u id : String) (b : NoteBody)
    (h1 : truthy b.folderId = true) (h2 : isValidObjectId (b.folderId.getD "") = false) :
    (notesPut db u id b).1.status = 400 ∧ (notesPut db u id b).2 = db := by
  by_cases hid : isValidObjectId id
  · by_cases htt : b.title == some ""
    · constructor <;> simp [notesPut, hid, htt, Resp.status]
    · constructor <;> simp [notesPut, hid, htt, h1, h2, Resp.status]
  · constructor <;> simp [notesPut, hid, Resp.status]

lemma post_bad_tag_format_400 (db : DB) (u nid : String) (b : NoteBody) (t : String)
    (ht : t ∈ b.tags) (hv : isValidObjectId t = false) :
    (notesPost db u nid b).1.status = 400 ∧ (notesPost db u nid b).2 = db := by
  have hany : b.tags.any (fun s => !isValidObjectId s) = true :=
    List.any_eq_true.mpr ⟨t, ht, by simp [hv]⟩
  have hdb := notesPostWrite_db_unchanged_of_castFail db u nid b
    (castOk_false_of_bad_tag b t ht hv)
  by_cases htl : truthy b.title
  · by_cases hfb : (truthy b.folderId && !isValidObjectId (b.folderId.getD "")) = true
    · constructor <;> simp [notesPost, htl, hfb, Resp.status]
    · constructor <;> simp [notesPost, htl, hfb, hany, hdb, Resp.status]
  · constructor <;> simp [notesPost, htl, Resp.status]

lemma put_bad_tag_format_400 (db : DB) (u id : String) (b : NoteBody) (t : String)
    (ht : t ∈ b.tags) (hv : isValidObjectId t = false) :
    (notesPut db u id b).1.status = 400 ∧ (notesPut db u id b).2 = db := by
  have hfil : ¬ (b.tags.filter (fun s => !isValidObjectId s)).length = 0 := by
    have hm : t ∈ b.tags.filter (fun s => !isValidObjectId s) :=
      List.mem_filter.mpr ⟨ht, by simp [hv]⟩
    have := List.length_pos.mpr (List.ne_nil_of_mem hm)
    omega
  by_cases hid : isValidObjectId id
  · by_cases htt : b.title == some ""
    · constructor <;> simp [notesPut, hid, htt, Resp.status]
    · by_cases hfb : (truthy b.folderId && !isValidObjectId (b.folderId.getD "")) = true
      · constructor <;> simp [notesPut, hid, htt, hfb, Resp.status]
      · constructor <;> simp [notesPut, hid, htt, hfb, hfil, Resp.status]
  · constructor <;> simp [notesPut, hid, Resp.status]

lemma post_validation_err_400 (db : DB) (u nid : String) (b : NoteBody) (e : ValErr)
    (he : e = ValErr.invalidFolder ∨ e = ValErr.invalidTag)
    (hfe : firstErr (validateFolderId db b.folderId u) (validateTagIds db b.tags u) = some e)
    (hfmtok : (truthy b.folderId && !isValidObjectId (b.folderId.getD "")) = false) :
    (notesPost db u nid b).1.status = 400 ∧ (notesPost db u nid b).2 = db := by
  have hw := notesPostWrite_eq_of_err db u nid b e hfe
  by_cases htl : truthy b.title
  · by_cases hany : b.tags.any (fun s => !isValidObjectId s) = true
    · constructor <;> simp [notesPost, htl, hfmtok, hany, hw, Resp.status]
    · rcases he with rfl | rfl <;> constructor <;>
        simp [notesPost, htl, hfmtok, hany, hw, mapValErr, Resp.status]
  · constructor <;> simp [notesPost, htl, Resp.status]

lemma put_validation_err_400 (db : DB) (u id : String) (b : NoteBody) (e : ValErr)
    (he : e = ValErr.invalidFolder ∨ e = ValErr.invalidTag)
    (hfe : firstErr (validateFolderId db b.folderId u) (validateTagIds db b.tags u) = some e)
    (hfmtok : (truthy b.folderId && !isValidObjectId (b.folderId.getD "")) = false)
    (hfil : (b.tags.filter (fun s => !isValidObjectId s)).length = 0) :
    (notesPut db u id b).1.status = 400 ∧ (notesPut db u id b).2 = db := by
  by_cases hid : isValidObjectId id
  · by_cases htt : b.title == some ""
    · constructor <;> simp [notesPut, hid, htt, Resp.status]
    · rcases he with rfl | rfl <;> constructor <;>
        simp [notesPut, hid, htt, hfmtok, hfil, hfe, mapValErr, Resp.status]
  · constructor <;> simp [notesPut, hid, Resp.status]

lemma post_write_validated (db : DB) (u nid : String) (b : NoteBody)
    (h : ¬ (notesPost db u nid b).2 = db) :
    validateFolderId db b.folderId u = none ∧ validateTagIds db b.tags u = none := by
  by_cases htl : truthy b.title
  case neg => exact absurd (by simp [notesPost, htl]) h
  by_cases hfb : (truthy b.folderId && !isValidObjectId (b.folderId.getD "")) = true
  case pos => exact absurd (by simp [notesPost, htl, hfb]) h
  have h2 : ¬ (notesPostWrite db u nid b).2 = db := by
    intro he
    apply h
    by_cases hany : b.tags.any (fun s => !isValidObjectId s) = true <;>
      simp [notesPost, htl, hfb, hany, he]
  cases hfe : firstErr (validateFolderId db b.folderId u) (validateTagIds db b.tags u) with
  | some e => exact absurd (by unfold notesPostWrite; simp [hfe]) h2
  | none => exact firstErr_eq_none hfe

lemma put_write_validated (db : DB) (u id : String) (b : NoteBody)
    (h : ¬ (notesPut db u id b).2 = db) :
    validateFolderId db b.folderId u = none ∧ validateTagIds db b.tags u = none := by
  by_cases hid : isValidObjectId id
  case neg => exact absurd (by simp [notesPut, hid]) h
  by_cases htt : b.title == some ""
  case pos => exact absurd (by simp [notesPut, hid, htt]) h
  by_cases hfb : (truthy b.folderId && !isValidObjectId (b.folderId.getD "")) = true
  case pos => exact absurd (by simp [notesPut, hid, htt, hfb]) h
  by_cases hfil : (b.tags.filter (fun s => !isValidObjectId s)).length = 0
  case neg => exact absurd (by simp [notesPut, hid, htt, hfb, hfil]) h
  cases hfe : firstErr (validateFolderId db b.folderId u) (validateTagIds db b.tags u) with
  | some e => exact absurd (by simp [notesPut, hid, htt, hfb, hfil, hfe]) h
  | none => exact firstErr_eq_none hfe

/-! ## Claim theorems -/

/-- Claim C1, evaluated at the input that violates it: the PUT handler
writes through `Note.findByIdAndUpdate(id, updateNote)`, which matches
on `_id` alone, so a request by user u2 naming the id of a note owned
by user u1 succeeds with a 200 json response, rewrites the note, and
even reassigns its userId to u2 — the update is NOT scoped to the
authenticated owner, contradicting the claim that every note mutation
is filtered by the requesting user. -/
theorem put_ignores_note_owner :
    (notesPut dbOwnedNote "u2" oidA ⟨some "hacked", none, none, []⟩).1
      = Resp.jsonNote ⟨oidA, "hacked", some "c", none, [], "u2"⟩
    ∧ (notesPut dbOwnedNote "u2" oidA ⟨some "hacked", none, none, []⟩).2.notes
      = [⟨oidA, "hacked", some "c", none, [], "u2"⟩]
    ∧ (notesPut dbOwnedNote "u2" oidA ⟨some "hacked", none, none, []⟩).1.status = 200 :=
  ⟨rfl, rfl, rfl⟩

/-- Claim C2, evaluated at the input that violates it: for the
registration body username "alice" / password "short", the size check
does find the too-short password (`tooSmallFields` returns it), but the
source never turns that finding into a rejection (the `if` on users.js
line 68 only binds a message string), so the handler proceeds: the
response is the 201 created response and the user IS persisted, against
the claimed 422 rejection. -/
theorem register_short_password_creates_user :
    tooSmallFields "alice" "short" = some "password"
    ∧ (registerUser (fun s => String.append "digest:" s) ⟨[]⟩
        ⟨some (JVal.str "alice"), some (JVal.str "short"), none⟩).1
      = RegResp.createdUser ⟨"alice", "digest:short", none⟩
    ∧ (registerUser (fun s => String.append "digest:" s) ⟨[]⟩
        ⟨some (JVal.str "alice"), some (JVal.str "short"), none⟩).2.users
      = [⟨"alice", "digest:short", none⟩]
    ∧ (registerUser (fun s => String.append "digest:" s) ⟨[]⟩
        ⟨some (JVal.str "alice"), some (JVal.str "short"), none⟩).1.status = 201 := by
  refine ⟨by decide, by decide, by decide, by decide⟩

/-- Claim C3, counterexample: the empty string is not a syntactically
valid ObjectId, yet a create request with folderId equal to the empty
string is NOT answered with 400 — the format check is guarded by
JavaScript truthiness (`folderId && !isValid(folderId)`), the empty
string is falsy, and the request dies later in `Note.create` with a
CastError, a 500. -/
theorem post_empty_folderId_not_400 :
    isValidObjectId "" = false
    ∧ (notesPost ⟨[], [], []⟩ "u1" oidA ⟨some "t", none, some "", []⟩).1
        = Resp.serverErr "CastError"
    ∧ ¬ (notesPost ⟨[], [], []⟩ "u1" oidA ⟨some "t", none, some "", []⟩).1.status = 400 := by
  refine ⟨by decide, rfl, by decide⟩

/-- Claim C9: a create request listing the same valid, requester-owned
tag id twice is rejected with the invalid-tag 400 (and nothing is
written), because validateTagIds compares the length of the submitted
array (2) with the number of distinct matching tags (1); likewise for
an update request. -/
theorem duplicate_tag_ids_rejected_400 :
    notesPost dbOneTag "u1" oidA ⟨some "hello", none, none, [oidB, oidB]⟩
      = (Resp.errResp 400 "The tag is not valid", dbOneTag)
    ∧ notesPut ⟨[], [⟨oidB, "work", "u1"⟩], [⟨oidA, "t", none, none, [], "u1"⟩]⟩
        "u1" oidA ⟨some "hello", none, none, [oidB, oidB]⟩
      = (Resp.errResp 400 "The tag is not valid",
         ⟨[], [⟨oidB, "work", "u1"⟩], [⟨oidA, "t", none, none, [], "u1"⟩]⟩) :=
  ⟨rfl, rfl⟩

/-- Claim C6: a registration request naming a username already present
in the user collection (and otherwise passing the earlier field checks,
which would themselves answer 422) is rejected through the
`User.find({username}).count()` guard: the response is the 422
ValidationError body of users.js lines 76-81 and 96-99, and the user
collection is unchanged, so usernames stay globally unique. -/
theorem duplicate_username_rejected_422 (hash : String → String) (db : UserDB)
    (u p : String) (fn : Option String)
    (hu : jsTrim u = u) (hp : jsTrim p = p)
    (hdup : ∃ x ∈ db.users, x.username = u) :
    (registerUser hash db ⟨some (JVal.str u), some (JVal.str p), fn.map JVal.str⟩).1
      = RegResp.validationErr 422 "ValidationError"
          ("Username " ++ u ++ " already exist, please pick a new one")
    ∧ (registerUser hash db ⟨some (JVal.str u), some (JVal.str p), fn.map JVal.str⟩).2 = db := by
  obtain ⟨x, hx, hxu⟩ := hdup
  have hcount : 0 < db.users.countP (fun x => x.username == u) :=
    List.countP_pos_iff.mpr ⟨x, hx, by simp [hxu]⟩
  cases fn <;> simp [registerUser, hu, hp, hcount]

/-- Witness for C6: registering "bob" twice is rejected. -/
theorem duplicate_username_rejected_422_witness :
    (registerUser (fun s => s) ⟨[⟨"bob", "x", none⟩]⟩
        ⟨some (JVal.str "bob"), some (JVal.str "password1"), none⟩).1
      = RegResp.validationErr 422 "ValidationError"
          "Username bob already exist, please pick a new one"
    ∧ (registerUser (fun s => s) ⟨[⟨"bob", "x", none⟩]⟩
        ⟨some (JVal.str "bob"), some (JVal.str "password1"), none⟩).2
      = ⟨[⟨"bob", "x", none⟩]⟩ :=
  duplicate_username_rejected_422 (fun s => s) ⟨[⟨"bob", "x", none⟩]⟩ "bob" "password1" none
    (by decide) (by decide) ⟨⟨"bob", "x", none⟩, by decide, rfl⟩

/-- Claim C7: every successful registration persists
`{username, password: digest, fullname}` where the digest is
`User.hashPassword(password)` — the stored password field is exactly
the hash of the submitted password, never the submitted plaintext
itself (the two coincide only if the hash function has a fixed point,
which bcrypt output format rules out). -/
theorem stored_password_is_digest (hash : String → String) (db : UserDB)
    (u p : String) (fn : Option String)
    (hu : jsTrim u = u) (hp : jsTrim p = p)
    (hnew : ∀ x ∈ db.users, ¬ x.username = u) :
    (registerUser hash db ⟨some (JVal.str u), some (JVal.str p), fn.map JVal.str⟩).1
      = RegResp.createdUser ⟨u, hash p, fn⟩
    ∧ (registerUser hash db ⟨some (JVal.str u), some (JVal.str p), fn.map JVal.str⟩).2.users
      = db.users ++ [⟨u, hash p, fn⟩] := by
  have hcount : db.users.countP (fun x => x.username == u) = 0 :=
    List.countP_eq_zero.mpr (fun x hx => by simp [hnew x hx])
  cases fn <;> simp [registerUser, hu, hp, hcount]

/-- Witness for C7: a fresh registration stores the digest. -/
theorem stored_password_is_digest_witness :
    (registerUser (fun s => String.append "digest:" s) ⟨[]⟩
        ⟨some (JVal.str "carol"), some (JVal.str "password1"), some (JVal.str "Carol C")⟩).1
      = RegResp.createdUser ⟨"carol", "digest:password1", some "Carol C"⟩
    ∧ (registerUser (fun s => String.append "digest:" s) ⟨[]⟩
        ⟨some (JVal.str "carol"), some (JVal.str "password1"), some (JVal.str "Carol C")⟩).2.users
      = [⟨"carol", "digest:password1", some "Carol C"⟩] :=
  stored_password_is_digest (fun s => String.append "digest:" s) ⟨[]⟩
    "carol" "password1" (some "Carol C")
    (by decide) (by decide) (by decide)

/-- Claim C8: a registration request whose username or password differs
from its trimmed form is rejected with status 422 by the
explicitlyTrimmedFields check of users.js lines 42-51, and no user is
created. -/
theorem untrimmed_credentials_rejected_422 (hash : String → String) (db : UserDB)
    (u p : String) (fn : Option String)
    (h : ¬ jsTrim u = u ∨ ¬ jsTrim p = p) :
    (registerUser hash db ⟨some (JVal.str u), some (JVal.str p), fn.map JVal.str⟩).1.status = 422
    ∧ (registerUser hash db ⟨some (JVal.str u), some (JVal.str p), fn.map JVal.str⟩).2 = db := by
  by_cases hu : jsTrim u = u
  · rcases h with h | hp
    · exact absurd hu h
    · cases fn <;> simp [registerUser, RegResp.status, hu, hp]
  · cases fn <;> simp [registerUser, RegResp.status, hu]

/-- Witness for C8: a password with a trailing space is rejected. -/
theorem untrimmed_credentials_rejected_422_witness :
    (registerUser (fun s => s) ⟨[]⟩
        ⟨some (JVal.str "dave"), some (JVal.str "password1 "), none⟩).1.status = 422
    ∧ (registerUser (fun s => s) ⟨[]⟩
        ⟨some (JVal.str "dave"), some (JVal.str "password1 "), none⟩).2 = ⟨[]⟩ :=
  untrimmed_credentials_rejected_422 (fun s => s) ⟨[]⟩ "dave" "password1 " none
    (Or.inr (by decide))

/-- Claim C5: a fetch-one or delete request naming a (well-formed) note
id with no note matching both that id and the requesting user — i.e.
the id does not exist at all, or the note belongs to a different user —
yields the bare-next not-found outcome, identical in the two scenarios
(both equal `Resp.notFound`), and a delete changes nothing; the
requester cannot tell a foreign note from a non-existent one. -/
theorem missing_or_foreign_note_not_found (db : DB) (u id : String)
    (hid : isValidObjectId id = true)
    (h : ∀ n ∈ db.notes, n.id = id → ¬ n.userId = u) :
    notesGetOne db u id = Resp.notFound
    ∧ (notesDelete db u id).1 = Resp.notFound
    ∧ (notesDelete db u id).2 = db := by
  have hfind : db.notes.find? (fun n => n.id == id && n.userId == u) = none := by
    rw [List.find?_eq_none]
    intro n hn
    simp only [Bool.and_eq_true, beq_iff_eq, not_and]
    exact fun h1 => by simp [h n hn h1]
  refine ⟨?_, ?_, ?_⟩ <;> simp [notesGetOne, notesDelete, hid, hfind]

/-- Witness for C5: user u2 fetching or deleting the note of user u1
gets the same not-found outcome as for an absent id. -/
theorem missing_or_foreign_note_not_found_witness :
    notesGetOne dbOwnedNote "u2" oidA = Resp.notFound
    ∧ (notesDelete dbOwnedNote "u2" oidA).1 = Resp.notFound
    ∧ (notesDelete dbOwnedNote "u2" oidA).2 = dbOwnedNote :=
  missing_or_foreign_note_not_found dbOwnedNote "u2" oidA (by decide) (by decide)

/-- Claim C10: an update request that omits the title field passes the
`title === ''` check of the PUT handler (undefined is not the empty
string), so the update proceeds and the note is rewritten with a 200
json response — an update needs no title; only a title equal to the
empty string is answered with the 400 missing-title error, with
nothing written. -/
theorem put_without_title_proceeds (db : DB) (u id : String) (c : Option String) (n : Note)
    (hid : isValidObjectId id = true)
    (hfind : db.notes.find? (fun m => m.id == id) = some n) :
    ((notesPut db u id ⟨none, c, none, []⟩).1
        = Resp.jsonNote (putMerge n u ⟨none, c, none, []⟩)
      ∧ (notesPut db u id ⟨none, c, none, []⟩).1.status = 200
      ∧ (notesPut db u id ⟨none, c, none, []⟩).2.notes
        = db.notes.map (fun m => if m.id == id then putMerge n u ⟨none, c, none, []⟩ else m))
    ∧ ∀ b : NoteBody, b.title = some "" →
        (notesPut db u id b).1 = Resp.errResp 400 "Missing `title` in request body"
        ∧ (notesPut db u id b).2 = db := by
  constructor
  · refine ⟨?_, ?_, ?_⟩ <;>
      simp [notesPut, hid, hfind, validateFolderId, validateTagIds, truthy, firstErr,
        castOk, Resp.status]
  · intro b hb
    exact ⟨by simp [notesPut, hid, hb], by simp [notesPut, hid, hb]⟩

/-- Witness for C10: updating the stored note with no title field
succeeds; updating it with an empty title is rejected. -/
theorem put_without_title_proceeds_witness :
    (notesPut dbOwnedNote "u1" oidA ⟨none, some "new", none, []⟩).1
      = Resp.jsonNote ⟨oidA, "secret", some "new", none, [], "u1"⟩
    ∧ (notesPut dbOwnedNote "u1" oidA ⟨some "", none, none, []⟩).1
      = Resp.errResp 400 "Missing `title` in request body" := by
  refine ⟨?_, ?_⟩
  · exact ((put_without_title_proceeds dbOwnedNote "u1" oidA (some "new")
      ⟨oidA, "secret", some "c", none, [], "u1"⟩ (by decide) rfl).1).1
  · exact ((put_without_title_proceeds dbOwnedNote "u1" oidA (some "new")
      ⟨oidA, "secret", some "c", none, [], "u1"⟩ (by decide) rfl).2
      ⟨some "", none, none, []⟩ rfl).1

/-- Claim C3 as amended: a create or update request whose folderId is
truthy (present and non-empty) but not a syntactically valid ObjectId,
or whose tags array contains an element that is not a syntactically
valid ObjectId, is answered with status 400 and neither creates nor
updates any note.  (The amendment restricts the folderId premise to
non-empty values: `post_empty_folderId_not_400` shows the original
claim fails for the falsy empty string, which skips the format
check.) -/
theorem invalid_ref_format_rejected_400 (db : DB) (u nid id : String) (b : NoteBody)
    (h : (truthy b.folderId = true ∧ isValidObjectId (b.folderId.getD "") = false)
       ∨ ∃ t ∈ b.tags, isValidObjectId t = false) :
    ((notesPost db u nid b).1.status = 400 ∧ (notesPost db u nid b).2 = db)
    ∧ ((notesPut db u id b).1.status = 400 ∧ (notesPut db u id b).2 = db) := by
  rcases h with ⟨h1, h2⟩ | ⟨t, ht, hv⟩
  · exact ⟨post_bad_folder_format_400 db u nid b h1 h2,
           put_bad_folder_format_400 db u id b h1 h2⟩
  · exact ⟨post_bad_tag_format_400 db u nid b t ht hv,
           put_bad_tag_format_400 db u id b t ht hv⟩

/-- Witness for the amended C3: a non-empty malformed folderId gets 400
on both create and update, with nothing written. -/
theorem invalid_ref_format_rejected_400_witness :
    ((notesPost ⟨[], [], []⟩ "u1" oidA ⟨some "t", none, some "xyz", []⟩).1.status = 400
      ∧ (notesPost ⟨[], [], []⟩ "u1" oidA ⟨some "t", none, some "xyz", []⟩).2 = ⟨[], [], []⟩)
    ∧ ((notesPut ⟨[], [], []⟩ "u1" oidA ⟨some "t", none, some "xyz", []⟩).1.status = 400
      ∧ (notesPut ⟨[], [], []⟩ "u1" oidA ⟨some "t", none, some "xyz", []⟩).2 = ⟨[], [], []⟩) :=
  invalid_ref_format_rejected_400 ⟨[], [], []⟩ "u1" oidA oidA
    ⟨some "t", none, some "xyz", []⟩ (Or.inl ⟨by decide, by decide⟩)

/-- Claim C4: a create or update request whose folderId names no folder
of the requesting user (absent or foreign-owned), or whose tags array
contains an id matching no tag of the requesting user, is answered with
status 400 and no note is created or updated; moreover any request that
does change the notes collection passed both the folder check and the
tag-set check (both validations ran, and succeeded, before the write).
The Nodup hypothesis is the uniqueness of stored Mongo ids. -/
theorem foreign_refs_rejected_before_write (db : DB) (u nid id : String) (b : NoteBody)
    (hnodup : (db.tags.map NTag.id).Nodup)
    (h : (∃ f, b.folderId = some f ∧ isValidObjectId f = true
            ∧ ∀ fo ∈ db.folders, ¬(fo.id = f ∧ fo.userId = u))
       ∨ (∃ t ∈ b.tags, ∀ tg ∈ db.tags, ¬(tg.id = t ∧ tg.userId = u))) :
    ((notesPost db u nid b).1.status = 400 ∧ (notesPost db u nid b).2 = db)
    ∧ ((notesPut db u id b).1.status = 400 ∧ (notesPut db u id b).2 = db)
    ∧ (∀ (db2 : DB) (u2 nid2 : String) (b2 : NoteBody),
        ¬ (notesPost db2 u2 nid2 b2).2 = db2 →
        validateFolderId db2 b2.folderId u2 = none ∧ validateTagIds db2 b2.tags u2 = none)
    ∧ (∀ (db2 : DB) (u2 id2 : String) (b2 : NoteBody),
        ¬ (notesPut db2 u2 id2 b2).2 = db2 →
        validateFolderId db2 b2.folderId u2 = none ∧ validateTagIds db2 b2.tags u2 = none) := by
  have hmain : ((notesPost db u nid b).1.status = 400 ∧ (notesPost db u nid b).2 = db)
      ∧ ((notesPut db u id b).1.status = 400 ∧ (notesPut db u id b).2 = db) := by
    rcases h with ⟨f, hbf, hfv, hno⟩ | ⟨t, ht, hnm⟩
    · have hvf : validateFolderId db b.folderId u = some ValErr.invalidFolder := by
        rw [hbf]
        exact validateFolderId_invalid db u f hfv hno
      have hfe : firstErr (validateFolderId db b.folderId u) (validateTagIds db b.tags u)
          = some ValErr.invalidFolder := by
        rw [hvf]
        rfl
      have hfmtok : (truthy b.folderId && !isValidObjectId (b.folderId.getD "")) = false := by
        rw [hbf]
        simp [hfv]
      by_cases hfil : (b.tags.filter (fun s => !isValidObjectId s)).length = 0
      · exact ⟨post_validation_err_400 db u nid b _ (Or.inl rfl) hfe hfmtok,
               put_validation_err_400 db u id b _ (Or.inl rfl) hfe hfmtok hfil⟩
      · have hex : ∃ s ∈ b.tags, isValidObjectId s = false := by
          have hne : b.tags.filter (fun s => !isValidObjectId s) ≠ [] := by
            intro he
            exact hfil (by rw [he]; rfl)
          obtain ⟨s, hsmem⟩ := List.exists_mem_of_ne_nil _ hne
          obtain ⟨hs1, hs2⟩ := List.mem_filter.mp hsmem
          exact ⟨s, hs1, by simpa using hs2⟩
        obtain ⟨s, hs, hsv⟩ := hex
        exact ⟨post_validation_err_400 db u nid b _ (Or.inl rfl) hfe hfmtok,
               put_bad_tag_format_400 db u id b s hs hsv⟩
    · by_cases hallval : ∀ s ∈ b.tags, isValidObjectId s = true
      · have hvt := validateTagIds_invalid db b.tags u t ht hallval hnm hnodup
        have hfil : (b.tags.filter (fun s => !isValidObjectId s)).length = 0 := by
          have hnil : b.tags.filter (fun s => !isValidObjectId s) = [] := by
            rw [List.filter_eq_nil_iff]
            intro s hs
            simp [hallval s hs]
          rw [hnil]
          rfl
        by_cases hfb : (truthy b.folderId && !isValidObjectId (b.folderId.getD "")) = true
        · rw [Bool.and_eq_true] at hfb
          obtain ⟨h1, h2⟩ := hfb
          have h2f : isValidObjectId (b.folderId.getD "") = false := by simpa using h2
          exact ⟨post_bad_folder_format_400 db u nid b h1 h2f,
                 put_bad_folder_format_400 db u id b h1 h2f⟩
        · have hfmtok : (truthy b.folderId && !isValidObjectId (b.folderId.getD "")) = false := by
            simpa using hfb
          cases hvf : validateFolderId db b.folderId u with
          | none =>
            have hfe : firstErr (validateFolderId db b.folderId u) (validateTagIds db b.tags u)
                = some ValErr.invalidTag := by
              rw [hvf]
              simpa [firstErr] using hvt
            exact ⟨post_validation_err_400 db u nid b _ (Or.inr rfl) hfe hfmtok,
                   put_validation_err_400 db u id b _ (Or.inr rfl) hfe hfmtok hfil⟩
          | some e =>
            have hnc := validateFolderId_ne_castErr db b.folderId u (by
              rintro ⟨a1, a2⟩
              exact hfb (by simp [a1, a2]))
            have he : e = ValErr.invalidFolder ∨ e = ValErr.invalidTag := by
              cases e with
              | invalidFolder => exact Or.inl rfl
              | invalidTag => exact Or.inr rfl
              | castErr => exact absurd hvf hnc
            have hfe : firstErr (validateFolderId db b.folderId u) (validateTagIds db b.tags u)
                = some e := by
              rw [hvf]
              rfl
            exact ⟨post_validation_err_400 db u nid b e he hfe hfmtok,
                   put_validation_err_400 db u id b e he hfe hfmtok hfil⟩
      · push_neg at hallval
        obtain ⟨s, hs, hsv⟩ := hallval
        have hsv2 : isValidObjectId s = false := by simpa using hsv
        exact ⟨post_bad_tag_format_400 db u nid b s hs hsv2,
               put_bad_tag_format_400 db u id b s hs hsv2⟩
  exact ⟨hmain.1, hmain.2,
         fun db2 u2 nid2 b2 => post_write_validated db2 u2 nid2 b2,
         fun db2 u2 id2 b2 => put_write_validated db2 u2 id2 b2⟩

/-- Witness for C4: referencing a folder owned by another user gets 400
on both create and update, with the database unchanged. -/
theorem foreign_refs_rejected_before_write_witness :
    ((notesPost ⟨[⟨oidB, "f", "u1"⟩], [], []⟩ "u2" oidA
        ⟨some "t", none, some oidB, []⟩).1.status = 400
      ∧ (notesPost ⟨[⟨oidB, "f", "u1"⟩], [], []⟩ "u2" oidA
          ⟨some "t", none, some oidB, []⟩).2 = ⟨[⟨oidB, "f", "u1"⟩], [], []⟩)
    ∧ ((notesPut ⟨[⟨oidB, "f", "u1"⟩], [], []⟩ "u2" oidA
        ⟨some "t", none, some oidB, []⟩).1.status = 400
      ∧ (notesPut ⟨[⟨oidB, "f", "u1"⟩], [], []⟩ "u2" oidA
          ⟨some "t", none, some oidB, []⟩).2 = ⟨[⟨oidB, "f", "u1"⟩], [], []⟩) := by
  have h := foreign_refs_rejected_before_write ⟨[⟨oidB, "f", "u1"⟩], [], []⟩ "u2" oidA oidA
    ⟨some "t", none, some oidB, []⟩ (by decide)
    (Or.inl ⟨oidB, rfl, by decide, by decide⟩)
  exact ⟨h.1, h.2.1⟩

end Noteful
